import Mathlib

/-!
Verification of the robot-orchestration runtime core (config conversion,
type registry, diff-and-reconfigure control loop, restart checker).

The web-server entry point (`serveWeb`, its watch loop, and its restart
checker goroutine) is embedded from the source of the `server` package.
The `config` package itself ships only its tests in this tree, so its
operations (`FromReader`, `TransformAttributeMapToStruct`, the registry
registration functions, `DiffConfigs`) are modelled from the spec, kept
faithful to the behaviour pinned down by the package's tests.
-/

/-- A dynamically-typed attribute value: string, number or boolean
(the scalar cases exercised by the code and its tests). -/
inductive Value where
  | str : String → Value
  | num : Int → Value
  | bool : Bool → Value
deriving DecidableEq, Repr

/-- AttributeMap: an ordered string-keyed bag of dynamically-typed values. -/
abbrev AttributeMap := List (String × Value)

/-- Whether `pat` is a leading run of `s` (character lists). -/
def leadEq : List Char → List Char → Bool
  | [], _ => true
  | _ :: _, [] => false
  | a :: as, b :: bs => a == b && leadEq as bs

/-- Whether `pat` occurs contiguously inside `s` (character lists). -/
def hasSub (pat : List Char) : List Char → Bool
  | [] => leadEq pat []
  | c :: rest => leadEq pat (c :: rest) || hasSub pat rest

/-- Substring test on strings, used to check error-message contents. -/
def strContains (s pat : String) : Bool :=
  hasSub pat.data s.data

/-- Network settings of a config: bind address plus the flag recording
that the default bind address was applied (mirrors `NetworkConfigData`). -/
structure NetworkConfigData where
  BindAddress : String
  BindAddressDefaultSet : Bool
deriving DecidableEq, Repr

/-- A validated component entry: name, type and typed attribute payload. -/
structure Component where
  Name : String
  «Type» : String
  Attributes : AttributeMap := []
deriving DecidableEq, Repr

/-- Cloud settings; `id` is the required field. -/
structure CloudConfig where
  id : String
deriving DecidableEq, Repr

/-- The validated in-memory configuration model (mirrors `config.Config`). -/
structure Config where
  ConfigFilePath : String
  Components : List Component := []
  Network : NetworkConfigData
  Cloud : Option CloudConfig := none
deriving DecidableEq, Repr

/-- The component type string `"arm"` (mirrors `ComponentTypeArm`). -/
def ComponentTypeArm : String := "arm"

/-- A parsed-but-unvalidated component section, as produced by decoding the
raw payload: absent fields decode to empty strings / empty maps. -/
structure RawComponent where
  name : String := ""
  type : String := ""
  attributes : AttributeMap := []
deriving DecidableEq, Repr

/-- A parsed-but-unvalidated cloud section; an absent `id` decodes to `""`. -/
structure RawCloud where
  id : String := ""
deriving DecidableEq, Repr

/-- A parsed-but-unvalidated configuration payload: missing top-level
sections default to empty/none, never an error. -/
structure RawConfig where
  cloud : Option RawCloud := none
  components : List RawComponent := []
  bindAddress : String := ""
deriving DecidableEq, Repr

/-- Modelled from the spec: component-list validation. Each entry requires a
non-empty name; a failure is annotated with the list name and zero-based
index of the offending entry (`components.<i>`). -/
def validateComponents : Nat → List RawComponent → Except String (List Component)
  | _, [] => Except.ok []
  | i, c :: rest =>
    if c.name = "" then
      Except.error ("components." ++ toString i ++ ": \"name\" is required")
    else
      match validateComponents (i + 1) rest with
      | Except.error e => Except.error e
      | Except.ok cs =>
        Except.ok ({ Name := c.name, «Type» := c.type, Attributes := c.attributes } :: cs)

/-- The default local loopback bind address and port. -/
def defaultBindAddress : String := "localhost:8080"

/-- Modelled from the spec: `FromReader` — parse (represented by the already
decoded `RawConfig`) then validate. Cloud, if present, requires a non-empty
id; every component requires a non-empty name; the network bind address
defaults to the local loopback address with `BindAddressDefaultSet` recording
that the default was applied. The first error aborts the whole validation. -/
def FromReader (path : String) (raw : RawConfig) : Except String Config :=
  match raw.cloud with
  | some c =>
    if c.id = "" then Except.error "\"id\" is required"
    else mkValidated path raw (some { id := c.id })
  | none => mkValidated path raw none
where
  mkValidated (path : String) (raw : RawConfig) (cloud : Option CloudConfig) :
      Except String Config :=
    match validateComponents 0 raw.components with
    | Except.error e => Except.error e
    | Except.ok comps =>
      let net : NetworkConfigData :=
        if raw.bindAddress = "" then
          { BindAddress := defaultBindAddress, BindAddressDefaultSet := true }
        else
          { BindAddress := raw.bindAddress, BindAddressDefaultSet := false }
      Except.ok { ConfigFilePath := path, Components := comps,
                  Network := net, Cloud := cloud }

/-- `true` iff the outcome is an error whose message contains `pat`. -/
def errContains (r : Except String Config) (pat : String) : Bool :=
  match r with
  | Except.error m => strContains m pat
  | Except.ok _ => false

/-!  ## TypeRegistry  -/

/-- The process-wide attribute-converter registry, tracked by its keys:
`(component type, model)` pairs for components and service types for
services. -/
structure AttributeRegistry where
  componentKeys : List (String × String) := []
  serviceKeys : List String := []
deriving DecidableEq, Repr

/-- `true` on the error variant (the modelled fatal panic). -/
def isRegError (r : Except String AttributeRegistry) : Bool :=
  match r with
  | Except.error _ => true
  | Except.ok _ => false

/-- Modelled from the spec: `RegisterComponentAttributeMapConverter`.
A duplicate `(kind, model)` registration is a fatal programmer-contract
violation (a panic, modelled as the error variant); a fresh key is
recorded permanently. -/
def RegisterComponentAttributeMapConverter (r : AttributeRegistry)
    (kind model : String) : Except String AttributeRegistry :=
  if (kind, model) ∈ r.componentKeys then
    Except.error ("duplicate registration for " ++ kind ++ "/" ++ model)
  else
    Except.ok { r with componentKeys := r.componentKeys ++ [(kind, model)] }

/-- Modelled from the spec: `RegisterServiceAttributeMapConverter`, keyed by
service type alone; duplicate registration is the same fatal condition. -/
def RegisterServiceAttributeMapConverter (r : AttributeRegistry)
    (svcType : String) : Except String AttributeRegistry :=
  if svcType ∈ r.serviceKeys then
    Except.error ("duplicate registration for " ++ svcType)
  else
    Except.ok { r with serviceKeys := r.serviceKeys ++ [svcType] }

/-!  ## AttributeMap / StructConverter  -/

/-- The residual-bucket flavor a destination declares: none, a plain
string-to-string map, or a fully dynamic `AttributeMap`-typed bucket. -/
inductive ResidualFlavor where
  | noBucket
  | stringMap
  | dynamicMap
deriving DecidableEq, Repr

/-- A conversion destination: the attribute keys its declared fields bind
to, the bound field values, and the residual bucket (in the flavor the
destination declares; the other bucket stays empty and unused). -/
structure Destination where
  declared : List String
  flavor : ResidualFlavor
  fields : List (String × Value) := []
  residualS : List (String × String) := []
  residualD : AttributeMap := []
deriving DecidableEq, Repr

/-- Modelled from the spec: route one attribute into the destination. A key
matched by a declared field populates that field; an unmatched key goes to
the residual bucket — dropped when there is none, kept only for string
values in the string-to-string flavor, and kept with its original value in
the dynamic flavor. -/
def routeAttribute (dest : Destination) (kv : String × Value) : Destination :=
  if kv.1 ∈ dest.declared then
    { dest with fields := dest.fields ++ [kv] }
  else
    match dest.flavor with
    | ResidualFlavor.noBucket => dest
    | ResidualFlavor.stringMap =>
      match kv.2 with
      | Value.str s => { dest with residualS := dest.residualS ++ [(kv.1, s)] }
      | _ => dest
    | ResidualFlavor.dynamicMap =>
      { dest with residualD := dest.residualD ++ [kv] }

/-- Modelled from the spec: `TransformAttributeMapToStruct` binds every
declared field from its matching key and routes all remaining keys into the
destination's residual bucket, preserving the bucket's pre-existing
entries. -/
def TransformAttributeMapToStruct (dest : Destination) (attrs : AttributeMap) :
    Destination :=
  attrs.foldl routeAttribute dest

/-- The string projection used by the string-to-string residual bucket:
keep an unmatched key only when its value is a string. -/
def residualStringEntry (declared : List String) (kv : String × Value) :
    Option (String × String) :=
  if kv.1 ∈ declared then none
  else
    match kv.2 with
    | Value.str s => some (kv.1, s)
    | _ => none

/-!  ## ConfigDiffer  -/

/-- The structured diff as consumed by the supervisor: the coarse-grained
network-equality flag (`diff.NetworkEqual` is all `serveWeb` reads). -/
structure ConfigDiff where
  NetworkEqual : Bool
deriving DecidableEq, Repr

/-- Modelled from the spec: `DiffConfigs`. `NetworkEqual` is true iff the
network settings are unchanged between the two models; `revealSensitive`
only affects rendering, never the equality computation. -/
def DiffConfigs (oldCfg newCfg : Config) (revealSensitive : Bool) : ConfigDiff :=
  { NetworkEqual := decide (oldCfg.Network = newCfg.Network) }

/-!  ## ReconfigureSupervisor (the watch loop of `serveWeb`)  -/

/-- An observable call the watch-loop body makes on the robot. -/
inductive Event where
  | reconfigure
  | stopWeb
  | startWeb
deriving DecidableEq, Repr

/-- Outcomes of the external calls one cycle of the watch loop makes:
`processed` is `processConfig`'s result (`none` = error), `diff` is
`config.DiffConfigs`' result (`none` = error), and the three flags tell
whether `StopWeb`, `createWebOptions` and `StartWeb` succeed. -/
structure CycleEnv where
  processed : Option Config
  diff : Option ConfigDiff
  stopWebOk : Bool
  webOptionsOk : Bool
  startWebOk : Bool
deriving Repr

/-- One iteration of `serveWeb`'s watch loop on a received candidate,
returning the calls made (in order) and the `oldCfg` baseline used for the
next cycle. A processing error skips the cycle; otherwise `Reconfigure`
runs, then the diff; a diff error skips the rest; if the network changed,
`StopWeb` is invoked, then web options are created, then `StartWeb`; a
`StopWeb` or options error skips the baseline update, while a `StartWeb`
error is only logged and the baseline still advances. -/
def watchCycle (env : CycleEnv) (oldCfg : Config) : List Event × Config :=
  match env.processed with
  | none => ([], oldCfg)
  | some processedConfig =>
    match env.diff with
    | none => ([Event.reconfigure], oldCfg)
    | some diff =>
      if diff.NetworkEqual then
        ([Event.reconfigure], processedConfig)
      else if !env.stopWebOk then
        ([Event.reconfigure, Event.stopWeb], oldCfg)
      else if !env.webOptionsOk then
        ([Event.reconfigure, Event.stopWeb], oldCfg)
      else
        ([Event.reconfigure, Event.stopWeb, Event.startWeb], processedConfig)

/-!  ## RestartChecker  -/

/-- A successful `needsRestart` response: the restart verdict and the
server-supplied interval for the next poll. -/
structure RestartPoll where
  mustRestart : Bool
  newInterval : Nat
deriving DecidableEq, Repr

/-- Observable outcome of one iteration of the restart-checker loop: the
poll interval for the next wait, whether `cancel()` was called, and whether
the loop returned. -/
structure RestartStepResult where
  interval : Nat
  cancelCalled : Bool
  loopDone : Bool
deriving DecidableEq, Repr

/-- One iteration of the restart-checker goroutine in `serveWeb`: if the
context is done during the wait the loop returns; a failed `needsRestart`
check is logged and the loop retries on the unchanged interval; on success
the server-supplied interval is adopted, and a `mustRestart` verdict calls
`cancel()` and returns. -/
def restartCheckStep (ctxDone : Bool) (poll : Option RestartPoll)
    (restartInterval : Nat) : RestartStepResult :=
  if ctxDone then
    { interval := restartInterval, cancelCalled := false, loopDone := true }
  else
    match poll with
    | none =>
      { interval := restartInterval, cancelCalled := false, loopDone := false }
    | some p =>
      if p.mustRestart then
        { interval := p.newInterval, cancelCalled := true, loopDone := true }
      else
        { interval := p.newInterval, cancelCalled := false, loopDone := false }

/-!  ## Theorems  -/

/-- Claim C5: parsing and validating the empty input `{}` succeeds and
yields a model with the default loopback bind address `localhost:8080`,
`BindAddressDefaultSet = true`, and empty component/service lists. -/
theorem fromReader_empty_input_defaults :
    FromReader "somepath" {} =
      Except.ok { ConfigFilePath := "somepath", Components := [],
                  Network := { BindAddress := "localhost:8080",
                               BindAddressDefaultSet := true },
                  Cloud := none } := rfl

/-- Claim C6: validation errors locate their path — `{"cloud": {}}` fails
with a message containing `"id" is required`, and `{"components": [{}]}`
fails with a message containing both `components.0` and
`"name" is required`. -/
theorem fromReader_error_messages_locate_path :
    errContains (FromReader "somepath" { cloud := some {} })
      "\"id\" is required" = true ∧
    errContains (FromReader "somepath" { components := [{}] })
      "components.0" = true ∧
    errContains (FromReader "somepath" { components := [{}] })
      "\"name\" is required" = true := by
  refine ⟨?_, ?_, ?_⟩ <;> rfl

/-- Claim C7: the input `{"components": [{"name": "foo", "type": "arm"}]}`
validates to a model with exactly one component named `foo` of type `arm`
and default network settings. -/
theorem fromReader_one_component :
    FromReader "somepath" { components := [{ name := "foo", type := "arm" }] } =
      Except.ok { ConfigFilePath := "somepath",
                  Components := [{ Name := "foo", «Type» := ComponentTypeArm }],
                  Network := { BindAddress := defaultBindAddress,
                               BindAddressDefaultSet := true },
                  Cloud := none } := rfl

/-- Claim C3: re-registering an attribute-map converter for an already
registered key is the fatal duplicate-registration condition (for both the
component and the service registration functions), while registering a
fresh key is not. -/
theorem register_duplicate_is_fatal (r r' r'' : AttributeRegistry)
    (kind model svcType : String) :
    (RegisterComponentAttributeMapConverter r kind model = Except.ok r' →
      isRegError (RegisterComponentAttributeMapConverter r' kind model) = true) ∧
    ((kind, model) ∉ r.componentKeys →
      isRegError (RegisterComponentAttributeMapConverter r kind model) = false) ∧
    (RegisterServiceAttributeMapConverter r svcType = Except.ok r'' →
      isRegError (RegisterServiceAttributeMapConverter r'' svcType) = true) ∧
    (svcType ∉ r.serviceKeys →
      isRegError (RegisterServiceAttributeMapConverter r svcType) = false) := by
  refine ⟨?_, ?_, ?_, ?_⟩
  · intro h
    by_cases hk : (kind, model) ∈ r.componentKeys
    · simp [RegisterComponentAttributeMapConverter, hk] at h
    · simp [RegisterComponentAttributeMapConverter, hk] at h
      subst h
      simp [RegisterComponentAttributeMapConverter, isRegError]
  · intro hk
    simp [RegisterComponentAttributeMapConverter, hk, isRegError]
  · intro h
    by_cases hk : svcType ∈ r.serviceKeys
    · simp [RegisterServiceAttributeMapConverter, hk] at h
    · simp [RegisterServiceAttributeMapConverter, hk] at h
      subst h
      simp [RegisterServiceAttributeMapConverter, isRegError]
  · intro hk
    simp [RegisterServiceAttributeMapConverter, hk, isRegError]

/-- Witness for C3 at the keys the package test uses. -/
theorem register_duplicate_is_fatal_witness :
    isRegError (RegisterComponentAttributeMapConverter
      { componentKeys := [("somecomponent", "somemodel")], serviceKeys := [] }
      "somecomponent" "somemodel") = true ∧
    isRegError (RegisterComponentAttributeMapConverter
      { componentKeys := [], serviceKeys := [] }
      "somecomponent" "somemodel") = false ∧
    isRegError (RegisterServiceAttributeMapConverter
      { componentKeys := [], serviceKeys := ["someservice"] }
      "someservice") = true ∧
    isRegError (RegisterServiceAttributeMapConverter
      { componentKeys := [], serviceKeys := [] } "someservice") = false := by
  refine ⟨?_, ?_, ?_, ?_⟩
  · exact (register_duplicate_is_fatal { componentKeys := [], serviceKeys := [] }
      { componentKeys := [("somecomponent", "somemodel")], serviceKeys := [] }
      { componentKeys := [], serviceKeys := [] }
      "somecomponent" "somemodel" "someservice").1 rfl
  · exact (register_duplicate_is_fatal { componentKeys := [], serviceKeys := [] }
      { componentKeys := [], serviceKeys := [] }
      { componentKeys := [], serviceKeys := [] }
      "somecomponent" "somemodel" "someservice").2.1 (by decide)
  · exact (register_duplicate_is_fatal { componentKeys := [], serviceKeys := [] }
      { componentKeys := [], serviceKeys := [] }
      { componentKeys := [], serviceKeys := ["someservice"] }
      "somecomponent" "somemodel" "someservice").2.2.1 rfl
  · exact (register_duplicate_is_fatal { componentKeys := [], serviceKeys := [] }
      { componentKeys := [], serviceKeys := [] }
      { componentKeys := [], serviceKeys := [] }
      "somecomponent" "somemodel" "someservice").2.2.2 (by decide)

/-- Characterization of the dynamic residual bucket: the transform appends
exactly the unmatched attributes, values untouched, after the bucket's
pre-existing entries. -/
theorem transform_dynamic_residual (attrs : AttributeMap) :
    ∀ dest : Destination, dest.flavor = ResidualFlavor.dynamicMap →
      (TransformAttributeMapToStruct dest attrs).residualD =
        dest.residualD ++
          attrs.filter (fun kv => decide (kv.1 ∉ dest.declared)) := by
  induction attrs with
  | nil =>
    intro dest _
    simp [TransformAttributeMapToStruct]
  | cons kv rest ih =>
    intro dest hf
    by_cases hk : kv.1 ∈ dest.declared
    · have hroute : routeAttribute dest kv =
          { dest with fields := dest.fields ++ [kv] } := by
        simp [routeAttribute, hk]
      have step := ih { dest with fields := dest.fields ++ [kv] } hf
      simp only [TransformAttributeMapToStruct, List.foldl_cons] at step ⊢
      rw [hroute, step]
      simp [List.filter_cons, hk]
    · have hroute : routeAttribute dest kv =
          { dest with residualD := dest.residualD ++ [kv] } := by
        simp [routeAttribute, hk, hf]
      have step := ih { dest with residualD := dest.residualD ++ [kv] } hf
      simp only [TransformAttributeMapToStruct, List.foldl_cons] at step ⊢
      rw [hroute, step]
      simp [List.filter_cons, hk]

/-- Characterization of the string-to-string residual bucket: the transform
appends exactly the unmatched attributes that carry string values (others
are dropped), after the bucket's pre-existing entries. -/
theorem transform_string_residual (attrs : AttributeMap) :
    ∀ dest : Destination, dest.flavor = ResidualFlavor.stringMap →
      (TransformAttributeMapToStruct dest attrs).residualS =
        dest.residualS ++
          attrs.filterMap (fun kv => residualStringEntry dest.declared kv) := by
  induction attrs with
  | nil =>
    intro dest _
    simp [TransformAttributeMapToStruct]
  | cons kv rest ih =>
    intro dest hf
    by_cases hk : kv.1 ∈ dest.declared
    · have hroute : routeAttribute dest kv =
          { dest with fields := dest.fields ++ [kv] } := by
        simp [routeAttribute, hk]
      have step := ih { dest with fields := dest.fields ++ [kv] } hf
      simp only [TransformAttributeMapToStruct, List.foldl_cons] at step ⊢
      rw [hroute, step]
      simp [List.filterMap_cons, residualStringEntry, hk]
    · cases hv : kv.2 with
      | str s =>
        have hroute : routeAttribute dest kv =
            { dest with residualS := dest.residualS ++ [(kv.1, s)] } := by
          simp [routeAttribute, hk, hf, hv]
        have step := ih { dest with residualS := dest.residualS ++ [(kv.1, s)] } hf
        simp only [TransformAttributeMapToStruct, List.foldl_cons] at step ⊢
        rw [hroute, step]
        simp [List.filterMap_cons, residualStringEntry, hk, hv]
      | num n =>
        have hroute : routeAttribute dest kv = dest := by
          simp [routeAttribute, hk, hf, hv]
        have step := ih dest hf
        simp only [TransformAttributeMapToStruct, List.foldl_cons] at step ⊢
        rw [hroute, step]
        simp [List.filterMap_cons, residualStringEntry, hk, hv]
      | bool b =>
        have hroute : routeAttribute dest kv = dest := by
          simp [routeAttribute, hk, hf, hv]
        have step := ih dest hf
        simp only [TransformAttributeMapToStruct, List.foldl_cons] at step ⊢
        rw [hroute, step]
        simp [List.filterMap_cons, residualStringEntry, hk, hv]

/-- Claim C4: with a residual bucket declared, every unmatched key is routed
into the bucket and every matched key is not, pre-existing bucket entries
staying in place: the dynamic (`AttributeMap`-typed) bucket receives every
unmatched attribute with its original value unmodified, while the
string-to-string bucket receives exactly the unmatched string-valued
attributes, dropping non-string values such as numbers. -/
theorem transformAttributeMapToStruct_residual_routing (dest : Destination)
    (attrs : AttributeMap) :
    (dest.flavor = ResidualFlavor.dynamicMap →
      (TransformAttributeMapToStruct dest attrs).residualD =
        dest.residualD ++
          attrs.filter (fun kv => decide (kv.1 ∉ dest.declared))) ∧
    (dest.flavor = ResidualFlavor.stringMap →
      (TransformAttributeMapToStruct dest attrs).residualS =
        dest.residualS ++
          attrs.filterMap (fun kv => residualStringEntry dest.declared kv)) :=
  ⟨transform_dynamic_residual attrs dest, transform_string_residual attrs dest⟩

/-- The attribute map used by the converter test: `a`–`d` strings, `e` the
number 5, with `a` and `b` matched by declared fields. -/
def attrsEx : AttributeMap :=
  [("a", Value.str "1"), ("b", Value.str "2"), ("c", Value.str "3"),
   ("d", Value.str "4"), ("e", Value.num 5)]

/-- Witness for C4 on the test's attribute map: the dynamic bucket gets
`c`, `d` and the number-valued `e` unmodified; the string bucket gets only
`c` and `d`. -/
theorem transformAttributeMapToStruct_residual_routing_witness :
    (TransformAttributeMapToStruct
        { declared := ["a", "b"], flavor := ResidualFlavor.dynamicMap }
        attrsEx).residualD =
      [("c", Value.str "3"), ("d", Value.str "4"), ("e", Value.num 5)] ∧
    (TransformAttributeMapToStruct
        { declared := ["a", "b"], flavor := ResidualFlavor.stringMap }
        attrsEx).residualS = [("c", "3"), ("d", "4")] := by
  constructor
  · exact ((transformAttributeMapToStruct_residual_routing
      { declared := ["a", "b"], flavor := ResidualFlavor.dynamicMap }
      attrsEx).1 rfl).trans (by decide)
  · exact ((transformAttributeMapToStruct_residual_routing
      { declared := ["a", "b"], flavor := ResidualFlavor.stringMap }
      attrsEx).2 rfl).trans (by decide)

/-- Claim C8: a failed `needsRestart` check only logs and retries — the
iteration neither cancels the context, nor ends the loop, nor changes the
poll interval. -/
theorem restartCheck_error_only_retries (interval : Nat) :
    restartCheckStep false none interval =
      { interval := interval, cancelCalled := false, loopDone := false } := rfl

/-- Claim C9: a successful check with `mustRestart = true` calls `cancel()`
(signalling shutdown) and ends the loop — the step's only effect is that
cancellation; with `mustRestart = false` the context is not cancelled, the
loop continues, and the server-supplied interval is adopted for the next
poll. -/
theorem restartCheck_mustRestart_cancels (interval : Nat) (p : RestartPoll) :
    (p.mustRestart = true →
      restartCheckStep false (some p) interval =
        { interval := p.newInterval, cancelCalled := true, loopDone := true }) ∧
    (p.mustRestart = false →
      restartCheckStep false (some p) interval =
        { interval := p.newInterval, cancelCalled := false,
          loopDone := false }) := by
  constructor <;> intro h <;> simp [restartCheckStep, h]

/-- Witness for C9 at concrete polls. -/
theorem restartCheck_mustRestart_cancels_witness :
    restartCheckStep false (some { mustRestart := true, newInterval := 7 }) 3 =
      { interval := 7, cancelCalled := true, loopDone := true } ∧
    restartCheckStep false (some { mustRestart := false, newInterval := 9 }) 3 =
      { interval := 9, cancelCalled := false, loopDone := false } :=
  ⟨(restartCheck_mustRestart_cancels 3
      { mustRestart := true, newInterval := 7 }).1 rfl,
   (restartCheck_mustRestart_cancels 3
      { mustRestart := false, newInterval := 9 }).2 rfl⟩

/-- A baseline config with the default bind address. -/
def cfgOldNet : Config :=
  { ConfigFilePath := "somepath",
    Network := { BindAddress := "localhost:8080",
                 BindAddressDefaultSet := true } }

/-- A candidate config that changes the bind address. -/
def cfgNewNet : Config :=
  { ConfigFilePath := "somepath",
    Network := { BindAddress := "localhost:9090",
                 BindAddressDefaultSet := false } }

/-- A cycle in which processing and diffing succeed, the bind address
changed, and every web-service call succeeds. -/
def cycleEnvNetChange : CycleEnv :=
  { processed := some cfgNewNet,
    diff := some (DiffConfigs cfgOldNet cfgNewNet false),
    stopWebOk := true, webOptionsOk := true, startWebOk := true }

/-- Counterexample to C1 as stated: in a bind-address-changing cycle where
every web call succeeds, the trace is `[reconfigure, stopWeb, startWeb]`,
so `StopWeb` and `StartWeb` are NOT invoked before the cycle's
`Reconfigure` call — `Reconfigure` comes first. -/
theorem watchCycle_stopStart_not_before_reconfigure :
    ¬ ((watchCycle cycleEnvNetChange cfgOldNet).1.indexOf Event.stopWeb <
         (watchCycle cycleEnvNetChange cfgOldNet).1.indexOf Event.reconfigure ∧
       (watchCycle cycleEnvNetChange cfgOldNet).1.indexOf Event.startWeb <
         (watchCycle cycleEnvNetChange cfgOldNet).1.indexOf
           Event.reconfigure) := by
  decide

/-- Claim C1 (amended): when the candidate changes the bind address (so the
diff reports a network change) and `StopWeb` and web-option creation
succeed, `StopWeb` and `StartWeb` are both invoked, in that order, AFTER
the cycle's `Reconfigure` call (which the loop issues before diffing, not
after the web restart); when network settings are unchanged, neither
`StopWeb` nor `StartWeb` is invoked. -/
theorem watchCycle_network_change_restarts_web (env : CycleEnv)
    (oldCfg cand : Config) (revealSensitive : Bool)
    (hp : env.processed = some cand)
    (hd : env.diff = some (DiffConfigs oldCfg cand revealSensitive)) :
    (oldCfg.Network.BindAddress ≠ cand.Network.BindAddress →
      env.stopWebOk = true → env.webOptionsOk = true →
      (watchCycle env oldCfg).1 =
        [Event.reconfigure, Event.stopWeb, Event.startWeb]) ∧
    (oldCfg.Network = cand.Network →
      (watchCycle env oldCfg).1 = [Event.reconfigure]) := by
  constructor
  · intro hne hs hw
    have hnet : ¬ oldCfg.Network = cand.Network := fun h =>
      hne (congrArg NetworkConfigData.BindAddress h)
    simp [watchCycle, hp, hd, DiffConfigs, hnet, hs, hw]
  · intro h
    simp [watchCycle, hp, hd, DiffConfigs, h]

/-- Witness for C1 (amended) on a concrete bind-address change and a
concrete attribute-only change. -/
theorem watchCycle_network_change_restarts_web_witness :
    (watchCycle cycleEnvNetChange cfgOldNet).1 =
      [Event.reconfigure, Event.stopWeb, Event.startWeb] ∧
    (watchCycle
        { processed := some cfgOldNet,
          diff := some (DiffConfigs cfgOldNet cfgOldNet false),
          stopWebOk := true, webOptionsOk := true, startWebOk := true }
        cfgOldNet).1 = [Event.reconfigure] := by
  constructor
  · exact (watchCycle_network_change_restarts_web cycleEnvNetChange
      cfgOldNet cfgNewNet false rfl rfl).1 (by decide) rfl rfl
  · exact (watchCycle_network_change_restarts_web
      { processed := some cfgOldNet,
        diff := some (DiffConfigs cfgOldNet cfgOldNet false),
        stopWebOk := true, webOptionsOk := true, startWebOk := true }
      cfgOldNet cfgOldNet false rfl rfl).2 rfl

/-- A cycle in which processing succeeds but diffing fails. -/
def cycleEnvDiffFail : CycleEnv :=
  { processed := some cfgNewNet, diff := none,
    stopWebOk := true, webOptionsOk := true, startWebOk := true }

/-- Counterexample to C2 as stated: when diffing the candidate fails, a
`Reconfigure` call HAS already been made for that candidate, contradicting
"no Reconfigure ... call is made for that candidate". -/
theorem watchCycle_diff_failure_still_reconfigures :
    Event.reconfigure ∈ (watchCycle cycleEnvDiffFail cfgOldNet).1 := by
  decide

/-- Claim C2 (amended): a processing failure discards the candidate with no
`Reconfigure`, `StopWeb` or `StartWeb` call and an unchanged baseline; a
diff failure makes no `StopWeb`/`StartWeb` call and leaves the baseline
unchanged for the next cycle, but the `Reconfigure` call for the candidate
has already been issued before the diff. -/
theorem watchCycle_failures_keep_baseline (env : CycleEnv) (oldCfg : Config) :
    (env.processed = none → watchCycle env oldCfg = ([], oldCfg)) ∧
    (env.processed.isSome = true → env.diff = none →
      watchCycle env oldCfg = ([Event.reconfigure], oldCfg)) := by
  constructor
  · intro h
    simp [watchCycle, h]
  · intro hs hd
    match henv : env.processed with
    | none => rw [henv] at hs; simp at hs
    | some c => simp [watchCycle, henv, hd]

/-- Witness for C2 (amended) at concrete failing cycles. -/
theorem watchCycle_failures_keep_baseline_witness :
    watchCycle
        { processed := none, diff := none, stopWebOk := true,
          webOptionsOk := true, startWebOk := true } cfgOldNet =
      ([], cfgOldNet) ∧
    watchCycle cycleEnvDiffFail cfgOldNet =
      ([Event.reconfigure], cfgOldNet) :=
  ⟨(watchCycle_failures_keep_baseline
      { processed := none, diff := none, stopWebOk := true,
        webOptionsOk := true, startWebOk := true } cfgOldNet).1 rfl,
   (watchCycle_failures_keep_baseline cycleEnvDiffFail cfgOldNet).2 rfl rfl⟩

/-- Claim C10: in a network-changed cycle the baseline update is
asymmetric across web-service errors: a `StopWeb` failure or a web-options
failure keeps the prior baseline, while a `StartWeb` failure still makes
the candidate the new baseline. -/
theorem watchCycle_baseline_asymmetry (env : CycleEnv)
    (oldCfg cand : Config) (d : ConfigDiff)
    (hp : env.processed = some cand)
    (hd : env.diff = some d)
    (hn : d.NetworkEqual = false) :
    (env.stopWebOk = false → (watchCycle env oldCfg).2 = oldCfg) ∧
    (env.stopWebOk = true → env.webOptionsOk = false →
      (watchCycle env oldCfg).2 = oldCfg) ∧
    (env.stopWebOk = true → env.webOptionsOk = true →
      env.startWebOk = false → (watchCycle env oldCfg).2 = cand) := by
  refine ⟨?_, ?_, ?_⟩
  · intro h
    simp [watchCycle, hp, hd, hn, h]
  · intro hs hw
    simp [watchCycle, hp, hd, hn, hs, hw]
  · intro hs hw _
    simp [watchCycle, hp, hd, hn, hs, hw]

/-- Witness for C10 at concrete cycles with each web-service failure. -/
theorem watchCycle_baseline_asymmetry_witness :
    (watchCycle
        { processed := some cfgNewNet, diff := some { NetworkEqual := false },
          stopWebOk := false, webOptionsOk := true, startWebOk := true }
        cfgOldNet).2 = cfgOldNet ∧
    (watchCycle
        { processed := some cfgNewNet, diff := some { NetworkEqual := false },
          stopWebOk := true, webOptionsOk := false, startWebOk := true }
        cfgOldNet).2 = cfgOldNet ∧
    (watchCycle
        { processed := some cfgNewNet, diff := some { NetworkEqual := false },
          stopWebOk := true, webOptionsOk := true, startWebOk := false }
        cfgOldNet).2 = cfgNewNet := by
  refine ⟨?_, ?_, ?_⟩
  · exact (watchCycle_baseline_asymmetry
      { processed := some cfgNewNet, diff := some { NetworkEqual := false },
        stopWebOk := false, webOptionsOk := true, startWebOk := true }
      cfgOldNet cfgNewNet { NetworkEqual := false } rfl rfl rfl).1 rfl
  · exact (watchCycle_baseline_asymmetry
      { processed := some cfgNewNet, diff := some { NetworkEqual := false },
        stopWebOk := true, webOptionsOk := false, startWebOk := true }
      cfgOldNet cfgNewNet { NetworkEqual := false } rfl rfl rfl).2.1 rfl rfl
  · exact (watchCycle_baseline_asymmetry
      { processed := some cfgNewNet, diff := some { NetworkEqual := false },
        stopWebOk := true, webOptionsOk := true, startWebOk := false }
      cfgOldNet cfgNewNet { NetworkEqual := false } rfl rfl rfl).2.2 rfl rfl rfl
